import Mathlib

/-!
Verification of the Mach-O in-process loader against its design
specification.  The Rust sources are shallowly embedded: each Lean
definition mirrors one function of the loader.  Kernel and dynamic
linker calls (mach_vm_write, mach_vm_protect, mach_vm_region, dlopen,
dlsym) are abstracted: queries become oracle functions passed as
arguments, and effects are reified as call traces, so every definition
is executable.  Rust panics become values of explicit error types.
-/

namespace MachOLoader

/-- Mach-O section flag mask: the low 8 bits of the section flags are
the type (mach-o/loader.h, mirrored in src/mach.rs and goblin). -/
def SECTION_TYPE : Nat := 0xff

/-- Section type: non-lazy symbol pointers. -/
def S_NON_LAZY_SYMBOL_POINTERS : Nat := 0x6

/-- Section type: lazy symbol pointers. -/
def S_LAZY_SYMBOL_POINTERS : Nat := 0x7

/-- Mask goblin applies in Nlist::get_type (n_type & N_TYPE). -/
def N_TYPE : Nat := 0x0e

/-- Symbol type: undefined. -/
def N_UNDF : Nat := 0x0

/-- Darwin vm_prot_t read bit. -/
def VM_PROT_READ : Nat := 0x1

/-- Darwin vm_prot_t write bit. -/
def VM_PROT_WRITE : Nat := 0x2

/-- Darwin vm_prot_t execute bit. -/
def VM_PROT_EXECUTE : Nat := 0x4

/-- Darwin dlfcn.h RTLD_LAZY flag. -/
def RTLD_LAZY : Nat := 0x1

/-- Darwin dlfcn.h RTLD_NOLOAD flag. -/
def RTLD_NOLOAD : Nat := 0x10

/-- src/utilities.rs segment_name_eq: prefix comparison of a 16-byte
fixed name field against a pattern (segname.starts_with(name)).
Names are modelled as strings of the characters of the 16-byte field. -/
def segment_name_eq (segname : String) (name : String) : Bool :=
  List.isPrefixOf name.data segname.data

/-- The arm64 top-nibble tag strip inside src/utilities.rs read_ptr:
if any of bits 63..60 is set, mask to bits 59..0, else identity. -/
def strip_tag (ptr : Nat) : Nat :=
  if ptr &&& 0xF000000000000000 ≠ 0 then ptr &&& 0x0FFFFFFFFFFFFFFF else ptr

/-- Little-endian read of a given number of bytes from a byte list
(u64::from_le_bytes / u32::from_le_bytes on a slice). -/
def readLe (data : List Nat) (offset : Nat) : Nat → Nat
  | 0 => 0
  | n + 1 => data.getD offset 0 + 256 * readLe data (offset + 1) n

/-- src/utilities.rs read_ptr: read a 64-bit (or 32-bit) little-endian
value at an offset and strip the arm64 top-nibble tag. -/
def read_ptr (is64 : Bool) (data : List Nat) (offset : Nat) : Nat :=
  strip_tag (if is64 then readLe data offset 8 else readLe data offset 4)

/-- src/room.rs get_library_ordinal: ((n_desc >> 8) & 0xff) as u8. -/
def get_library_ordinal (n_desc : Nat) : Nat :=
  (n_desc >>> 8) &&& 0xff

/-- A Mach-O symbol table entry (goblin nlist fields the loader uses). -/
structure Nlist where
  n_type : Nat
  n_desc : Nat
  n_value : Nat
  deriving DecidableEq, Repr

/-- goblin Nlist::get_type: n_type & N_TYPE. -/
def nlistGetType (nl : Nlist) : Nat := nl.n_type &&& N_TYPE

/-- A Mach-O section descriptor together with its file bytes, as
yielded by goblin Segment::sections() in src/room.rs. -/
structure SectionD where
  sectname : String
  flags : Nat
  addr : Nat
  size : Nat
  offset : Nat
  data : List Nat
  deriving DecidableEq, Repr

/-- A Mach-O segment descriptor (goblin segment_command_64 fields). -/
structure SegmentD where
  segname : String
  fileoff : Nat
  filesize : Nat
  vmaddr : Nat
  vmsize : Nat
  maxprot : Nat
  initprot : Nat
  sections : List SectionD
  deriving DecidableEq, Repr

/-- The parsed Mach-O view used by src/room.rs: flag, segments with
their section data, symbol table in file order, entry offset. -/
structure MachOD where
  is_64 : Bool
  segments : List SegmentD
  symbols : List (String × Nlist)
  entry : Nat
  deriving DecidableEq, Repr

/-- Sequence a list of fallible steps, keeping results in order and
stopping at the first error (the panic semantics of the Rust loops). -/
def traverseE {α β ε : Type} (f : α → Except ε β) : List α → Except ε (List β)
  | [] => .ok []
  | x :: xs =>
    match f x with
    | .error e => .error e
    | .ok y =>
      match traverseE f xs with
      | .error e => .error e
      | .ok ys => .ok (y :: ys)

/-- Panics that can abort Room::rebind_global_offset_table. -/
inductive RebindError
  | symbolNotFound
  | notUndefinedSymbol
  | ordinalUnderflow
  | ordinalOutOfRange
  deriving DecidableEq, Repr

/-- One iteration of the slot loop in Room::rebind_global_offset_table
(src/room.rs lines 264-311): read the pre-link pointer of slot
nth_entry, find the first symbol whose n_value equals it, require it
undefined, select the dylib by library ordinal using checked u8
subtraction and bounds-checked indexing, resolve through dlsym with
the leading underscore stripped, and emit the 8-byte store the code
performs.  The store address is vm + section.addr, exactly as in the
source (the code never adds 8 * nth_entry).  dlsym is an oracle from
(handle, name) to the resolved address. -/
def rebindSlot (symbols : List (String × Nlist)) (dylibs : List (String × Nat))
    (dlsym : Nat → String → Nat) (vm : Nat) (is64 : Bool)
    (sectAddr : Nat) (data : List Nat) (nthEntry : Nat) :
    Except RebindError (Nat × Nat) :=
  let entrySize := if is64 then 8 else 4
  let ptrValue := read_ptr is64 data (nthEntry * entrySize)
  match symbols.find? (fun s => s.2.n_value == ptrValue) with
  | none => .error .symbolNotFound
  | some (symname, nlist) =>
    if nlistGetType nlist = N_UNDF then
      let libIndex := get_library_ordinal nlist.n_desc
      if libIndex = 0 then .error .ordinalUnderflow
      else
        match dylibs.get? (libIndex - 1) with
        | none => .error .ordinalOutOfRange
        | some lib =>
          let cname := symname.drop 1
          let newPointer := dlsym lib.2 cname
          .ok (vm + sectAddr, newPointer)
    else .error .notUndefinedSymbol

/-- The per-section body of Room::rebind_global_offset_table: sections
whose name does not begin with __got are skipped; for a matching name
the section type must be 0x6 or 0x7 to be processed, any other type is
silently skipped (the match arm for other types does nothing); the
processed section is treated as data.len / entry_size slots. -/
def rebindSection (symbols : List (String × Nlist)) (dylibs : List (String × Nat))
    (dlsym : Nat → String → Nat) (vm : Nat) (is64 : Bool)
    (sect : SectionD) : Except RebindError (List (Nat × Nat)) :=
  if segment_name_eq sect.sectname "__got" then
    if sect.flags &&& SECTION_TYPE = S_NON_LAZY_SYMBOL_POINTERS
        ∨ sect.flags &&& SECTION_TYPE = S_LAZY_SYMBOL_POINTERS then
      let entrySize := if is64 then 8 else 4
      traverseE (rebindSlot symbols dylibs dlsym vm is64 sect.addr sect.data)
        (List.range (sect.data.length / entrySize))
    else .ok []
  else .ok []

/-- The per-segment body of Room::rebind_global_offset_table: only
segments whose name begins with __DATA_CONST are walked. -/
def rebindSegment (symbols : List (String × Nlist)) (dylibs : List (String × Nat))
    (dlsym : Nat → String → Nat) (vm : Nat) (is64 : Bool)
    (seg : SegmentD) : Except RebindError (List (Nat × Nat)) :=
  if segment_name_eq seg.segname "__DATA_CONST" then
    match traverseE (rebindSection symbols dylibs dlsym vm is64) seg.sections with
    | .error e => .error e
    | .ok ws => .ok ws.flatten
  else .ok []

/-- Room::rebind_global_offset_table (src/room.rs lines 250-318),
reified as the ordered list of (address, u64 value) stores it performs,
or the panic that aborts it. -/
def rebind_global_offset_table (macho : MachOD) (dylibs : List (String × Nat))
    (dlsym : Nat → String → Nat) (vm : Nat) :
    Except RebindError (List (Nat × Nat)) :=
  match traverseE (rebindSegment macho.symbols dylibs dlsym vm macho.is_64)
      macho.segments with
  | .error e => .error e
  | .ok ws => .ok ws.flatten

/-- Replay a list of (address, value) 64-bit stores over a memory state
given as a function from cell address to value. -/
def applyWrites (mem : Nat → Nat) : List (Nat × Nat) → Nat → Nat
  | [] => mem
  | w :: rest => applyWrites (fun x => if x = w.1 then w.2 else mem x) rest

/-- The panic that aborts Room::segments_protection_apply when the
post-seal readback disagrees with initprot. -/
inductive SealError
  | protectionMismatch
  deriving DecidableEq, Repr

/-- One mach_vm_protect invocation: address, size, set_maximum flag,
protection value. -/
structure ProtCall where
  addr : Nat
  size : Nat
  setMax : Bool
  prot : Nat
  deriving DecidableEq, Repr

/-- The two protect calls Room::segments_protection_apply makes per
segment: [false, true].into_iter() applies set_maximum = false first,
then set_maximum = true, both with initprot. -/
def sealCalls (vm : Nat) (seg : SegmentD) : List ProtCall :=
  [⟨vm + seg.vmaddr, seg.vmsize, false, seg.initprot⟩,
   ⟨vm + seg.vmaddr, seg.vmsize, true, seg.initprot⟩]

/-- The per-segment body of Room::segments_protection_apply
(src/room.rs lines 205-248): skip __PAGEZERO; otherwise issue the two
protect calls, then assert_protection compares the kernel-reported
region protection (oracle regionProt) with initprot under equality and
panics on mismatch. -/
def segmentSeal (vm : Nat) (regionProt : Nat → Nat) (seg : SegmentD) :
    Except SealError (List ProtCall) :=
  if segment_name_eq seg.segname "__PAGEZERO" then .ok []
  else
    if regionProt (vm + seg.vmaddr) = seg.initprot then .ok (sealCalls vm seg)
    else .error .protectionMismatch

/-- Room::segments_protection_apply, reified as the trace of protect
calls it makes, or the panic that aborts it. -/
def segments_protection_apply (vm : Nat) (regionProt : Nat → Nat) :
    List SegmentD → Except SealError (List ProtCall)
  | [] => .ok []
  | seg :: rest =>
    match segmentSeal vm regionProt seg with
    | .error e => .error e
    | .ok calls =>
      match segments_protection_apply vm regionProt rest with
      | .error e => .error e
      | .ok more => .ok (calls ++ more)

/-- One mach_vm_write issued by the segment mapper: source offset in
the image, destination virtual address, byte count. -/
structure CopyOp where
  src : Nat
  dst : Nat
  count : Nat
  deriving DecidableEq, Repr

/-- Room::segments_initialize (src/room.rs lines 175-203), reified as
the list of copies it performs: for every segment, unconditionally,
filesize bytes from image + fileoff to vm + vmaddr.  The source has no
__PAGEZERO test here. -/
def segmentsLoadIn (vm : Nat) : List SegmentD → List CopyOp
  | [] => []
  | seg :: rest => ⟨seg.fileoff, vm + seg.vmaddr, seg.filesize⟩ :: segmentsLoadIn vm rest

/-- A section of the Task variant (src/lib.rs struct Section). -/
structure TSection where
  flags : Nat
  name : String
  offset : Nat
  vm_addr : Nat
  vm_size : Nat
  align : Nat
  deriving DecidableEq, Repr

/-- A segment of the Task variant (src/lib.rs struct Segment); size is
the file size, the amount mapped from the file. -/
structure TSegment where
  flags : Nat
  name : String
  offset : Nat
  vm_addr : Nat
  vm_size : Nat
  size : Nat
  maxprot : Nat
  initprot : Nat
  sections : List TSection
  deriving DecidableEq, Repr

/-- Task::segments_protect (src/lib.rs lines 204-215), reified as its
trace of vm_protect calls: for every segment, with no __PAGEZERO test
and no readback, protect(memory + vm_addr, size, max=false, initprot)
then protect(memory + vm_addr, size, max=true, initprot). -/
def segments_protect (memory : Nat) : List TSegment → List ProtCall
  | [] => []
  | seg :: rest =>
    ⟨memory + seg.vm_addr, seg.size, false, seg.initprot⟩ ::
    ⟨memory + seg.vm_addr, seg.size, true, seg.initprot⟩ ::
    segments_protect memory rest

/-- Error taxonomy of the input validation stage (spec section 7; the
source panics with corresponding messages in src/lib.rs task_init). -/
inductive ErrCodeD
  | nullImage
  | emptyImage
  | imageTooLarge
  deriving DecidableEq, Repr

/-- The three guard clauses at the top of task_init (src/lib.rs lines
263-275), in source order: null pointer, zero length, length above
100_000_000.  An ok result means control reaches Mach::parse. -/
def task_init_validate (ptrIsNull : Bool) (len : Nat) : Except ErrCodeD Unit :=
  if ptrIsNull then .error .nullImage
  else if len = 0 then .error .emptyImage
  else if len > 100000000 then .error .imageTooLarge
  else .ok ()

/-- Panics that can abort Linker::link_raw (src/linker.rs). -/
inductive LinkError
  | unsupportedFlags
  | symbolNotFound
  deriving DecidableEq, Repr

/-- The per-section body of Linker::link_raw (src/linker.rs lines
81-146): exact 16-byte name equality against padded __got and
__auth_got; a matching name with a type other than 0x6/0x7 panics
(unsupported flags); otherwise vm_size / 8 slots are written at
memory + vm_addr + 8 * index with the positional symbol offset; the
pacia signing call for __auth_got is commented out in the source, so
both section kinds store the raw value. -/
def link_raw_section (symbols : List (String × Nat)) (memory : Nat)
    (sect : TSection) : Except LinkError (List (Nat × Nat)) :=
  if sect.name = "__got\x00\x00\x00\x00\x00\x00\x00\x00\x00\x00\x00"
      ∨ sect.name = "__auth_got\x00\x00\x00\x00\x00\x00" then
    if (sect.flags &&& SECTION_TYPE = S_NON_LAZY_SYMBOL_POINTERS
        ∨ sect.flags &&& SECTION_TYPE = S_LAZY_SYMBOL_POINTERS) then
      traverseE (fun index =>
          match symbols.get? index with
          | none => .error LinkError.symbolNotFound
          | some s => .ok (memory + sect.vm_addr + 8 * index, s.2))
        (List.range (sect.vm_size / 8))
    else .error .unsupportedFlags
  else .ok []

/-- The per-segment body of Linker::link_raw: only the segment whose
full 16-byte name equals __DATA_CONST padded is walked. -/
def link_raw_segment (symbols : List (String × Nat)) (memory : Nat)
    (seg : TSegment) : Except LinkError (List (Nat × Nat)) :=
  if seg.name = "__DATA_CONST\x00\x00\x00\x00" then
    match traverseE (link_raw_section symbols memory) seg.sections with
    | .error e => .error e
    | .ok ws => .ok ws.flatten
  else .ok []

/-- Linker::link_raw (src/linker.rs lines 70-148), reified as its
ordered list of (address, u64 value) stores, or the panic aborting it. -/
def link_raw (symbols : List (String × Nat)) (memory : Nat)
    (segments : List TSegment) : Except LinkError (List (Nat × Nat)) :=
  match traverseE (link_raw_segment symbols memory) segments with
  | .error e => .error e
  | .ok ws => .ok ws.flatten

/-- An element of the argv array handed to the guest entry function:
a null pointer, a pointer to a byte string, or an integer smuggled in
as a pointer (argc as *const u8 in src/room.rs). -/
inductive ArgvElem
  | nullPtr
  | strPtr (s : String)
  | intPtr (n : Nat)
  deriving DecidableEq, Repr

/-- CString::new(s) followed by as_bytes_with_nul: the string with its
terminating NUL byte. -/
def cstring (s : String) : String := s ++ "\x00"

/-- The program_arguments vector both entry jumpers build: the program
name as a C string, then every host environment string (NUL included)
in order.  No null terminator is appended. -/
def program_arguments (name : String) (envs : List String) : List String :=
  cstring name :: envs.map cstring

/-- argc as both jumpers compute it: the length of the argument vector
before the environment strings are pushed, hence always 1. -/
def argcInitial (name : String) : Nat := [cstring name].length

/-- The argv array built by src/jumper.rs jumper: pointers to the
program_arguments strings, nothing prepended, no trailing null. -/
def jumperArgv (name : String) (envs : List String) : List ArgvElem :=
  (program_arguments name envs).map .strPtr

/-- The argv array built by Room::jump_to_entry (src/room.rs lines
355-357): iter::once(argc as *const u8) chained before the pointers to
the program_arguments strings, no trailing null. -/
def roomArgv (name : String) (envs : List String) : List ArgvElem :=
  .intPtr (argcInitial name) :: jumperArgv name envs

/-- The panic raised by assert_protection when the entry region check
fails in Room::jump_to_entry. -/
inductive JumpError
  | entryNotExecutable
  deriving DecidableEq, Repr

/-- The one-way control transfer, reified: target address, argc and
argv as passed to the guest entry function. -/
structure JumpEvent where
  addr : Nat
  argc : Nat
  argv : List ArgvElem
  deriving DecidableEq, Repr

/-- Room::jump_to_entry (src/room.rs lines 339-380): build the
argument vector, compute entry_address = vm + macho.entry, and call
assert_protection(entry_address, VM_PROT_READ | VM_PROT_EXECUTE),
which reads the region protection (oracle regionProt) and requires it
EQUAL to the requested value (memory_check_protection in src/vm.rs
line 132 compares info.protection == prot); on mismatch it panics and
the jump never happens. -/
def jump_to_entry (vm entry : Nat) (name : String) (envs : List String)
    (regionProt : Nat → Nat) : Except JumpError JumpEvent :=
  let entryAddress := vm + entry
  if regionProt entryAddress = (VM_PROT_READ ||| VM_PROT_EXECUTE) then
    .ok ⟨entryAddress, argcInitial name, roomArgv name envs⟩
  else .error .entryNotExecutable

/-- The dylib load command variants Room::dylibs_load_in reacts to,
carrying the resolved dylib path; every other command is skipped. -/
inductive CommandVariantD
  | loadDylib (name : String)
  | loadWeakDylib (name : String)
  | loadUpwardDylib (name : String)
  | reexportDylib (name : String)
  | lazyLoadDylib (name : String)
  | other
  deriving DecidableEq, Repr

/-- Room::dylibs_load_in (src/room.rs lines 85-131), reified as the
ordered list of dlopen calls (path, flags): plain, upward and reexport
dylib commands use flags 0, weak uses RTLD_NOLOAD, lazy uses
RTLD_LAZY, all other load commands are skipped. -/
def dylibs_load_in : List CommandVariantD → List (String × Nat)
  | [] => []
  | c :: rest =>
    match c with
    | .loadDylib n | .loadUpwardDylib n | .reexportDylib n =>
      (n, 0) :: dylibs_load_in rest
    | .loadWeakDylib n => (n, RTLD_NOLOAD) :: dylibs_load_in rest
    | .lazyLoadDylib n => (n, RTLD_LAZY) :: dylibs_load_in rest
    | .other => dylibs_load_in rest

/-- The dylib path carried by a load command variant. -/
def variantName : CommandVariantD → String
  | .loadDylib n | .loadWeakDylib n | .loadUpwardDylib n
  | .reexportDylib n | .lazyLoadDylib n => n
  | .other => ""

/-- The flags table of spec section 4.4, written from the words of the spec
for comparison with the code: 0 for load/upward/reexport, RTLD_NOLOAD
for weak, RTLD_LAZY for lazy, none for non-dylib commands. -/
def specDylibFlags : CommandVariantD → Option Nat
  | .loadDylib _ => some 0
  | .loadUpwardDylib _ => some 0
  | .reexportDylib _ => some 0
  | .loadWeakDylib _ => some RTLD_NOLOAD
  | .lazyLoadDylib _ => some RTLD_LAZY
  | .other => none



/-! Concrete inputs used by counterexamples and witnesses. -/

def c1section : SectionD :=
  ⟨"__got\x00\x00\x00\x00\x00\x00\x00\x00\x00\x00\x00", 6, 256, 16, 0,
   [0, 16, 0, 0, 0, 0, 0, 0, 0, 32, 0, 0, 0, 0, 0, 0]⟩

def c1segment : SegmentD :=
  ⟨"__DATA_CONST\x00\x00\x00\x00", 16384, 16384, 16384, 16384, 3, 3, [c1section]⟩

def c1symbols : List (String × Nlist) :=
  [("_foo", ⟨1, 256, 4096⟩), ("_bar", ⟨1, 256, 8192⟩)]

def c1macho : MachOD := ⟨true, [c1segment], c1symbols, 16384⟩

def c1dylibs : List (String × Nat) := [("/usr/lib/libSystem.B.dylib", 42)]

def c1dlsym : Nat → String → Nat := fun h n =>
  if h == 42 && n == "foo" then 43690
  else if h == 42 && n == "bar" then 48059
  else 0

def c2seg : SegmentD :=
  ⟨"__TEXT\x00\x00\x00\x00\x00\x00\x00\x00\x00\x00", 0, 16384, 16384, 16384, 7, 5, []⟩

def c4section : SectionD :=
  ⟨"__got\x00\x00\x00\x00\x00\x00\x00\x00\x00\x00\x00", 11, 256, 16, 0,
   [0, 16, 0, 0, 0, 0, 0, 0]⟩

def c4macho : MachOD :=
  ⟨true, [⟨"__DATA_CONST\x00\x00\x00\x00", 16384, 16384, 16384, 16384, 3, 3, [c4section]⟩],
   [], 0⟩

def c8pzSegment : SegmentD :=
  ⟨"__PAGEZERO\x00\x00\x00\x00\x00\x00", 64, 8, 0, 4096, 0, 0, []⟩

def c8pzTSegment : TSegment :=
  ⟨0, "__PAGEZERO\x00\x00\x00\x00\x00\x00", 64, 0, 4096, 8, 0, 0, []⟩

/-! Helper lemmas. -/

theorem and_hi_eq (v : Nat) (h : v < 2 ^ 64) :
    v &&& 0xF000000000000000 = (v >>> 60) <<< 60 := by
  apply Nat.eq_of_testBit_eq
  intro i
  rw [Nat.testBit_and, Nat.testBit_shiftLeft, Nat.testBit_shiftRight]
  by_cases h60 : 60 ≤ i
  · have hi : 60 + (i - 60) = i := by omega
    rw [hi]
    by_cases h64 : i < 64
    · have hm : (0xF000000000000000 : Nat).testBit i = true := by
        interval_cases i <;> decide
      simp [hm, h60]
    · have hv : v.testBit i = false := by
        apply Nat.testBit_lt_two_pow
        calc v < 2 ^ 64 := h
          _ ≤ 2 ^ i := Nat.pow_le_pow_right (by omega) (by omega)
      simp [hv]
  · have hm : (0xF000000000000000 : Nat).testBit i = false := by
      have hmod : (0xF000000000000000 : Nat) % 2 ^ 60 = 0 := by decide
      have ht := Nat.testBit_mod_two_pow 0xF000000000000000 60 i
      rw [hmod] at ht
      simp only [Nat.zero_testBit] at ht
      have hd : decide (i < 60) = true := by simp; omega
      rw [hd] at ht
      simpa using ht.symm
    simp [hm, h60]

theorem lo_mask_eq (v : Nat) : v &&& 0x0FFFFFFFFFFFFFFF = v % 2 ^ 60 := by
  have h : (0x0FFFFFFFFFFFFFFF : Nat) = 2 ^ 60 - 1 := by decide
  rw [h, Nat.and_pow_two_sub_one_eq_mod]

theorem segmentsLoadIn_eq_map (vm : Nat) (segs : List SegmentD) :
    segmentsLoadIn vm segs =
      segs.map (fun g => ⟨g.fileoff, vm + g.vmaddr, g.filesize⟩) := by
  induction segs with
  | nil => rfl
  | cons g rest ih => simp [segmentsLoadIn, ih]

theorem segments_protect_eq_flatMap (memory : Nat) (segs : List TSegment) :
    segments_protect memory segs = segs.flatMap
      (fun g => [⟨memory + g.vm_addr, g.size, false, g.initprot⟩,
                 ⟨memory + g.vm_addr, g.size, true, g.initprot⟩]) := by
  induction segs with
  | nil => rfl
  | cons g rest ih => simp [segments_protect, ih]

/-! Claim theorems. -/

/-- Claim C1 (code bug witnessed by evaluation): on a __DATA_CONST
segment holding one type-6 __got section with two slots whose pre-link
values name the undefined symbols _foo and _bar of dylib ordinal 1,
the rebinder resolves both symbols but stores both results at
vm + section.addr: the trace writes slot 0 twice, the final memory at
slot 0 holds the address of _bar instead of that of _foo, and slot 1 is never
written; moreover the __got name filter rejects __auth_got, so
auth-got sections are never rebound or signed. -/
theorem c1_got_slot_writes_collapse :
    rebind_global_offset_table c1macho c1dylibs c1dlsym 65536 =
      .ok [(65792, 43690), (65792, 48059)]
  ∧ c1dlsym 42 "foo" = 43690
  ∧ c1dlsym 42 "bar" = 48059
  ∧ applyWrites (fun _ => 0) [(65792, 43690), (65792, 48059)] 65792 = 48059
  ∧ applyWrites (fun _ => 0) [(65792, 43690), (65792, 48059)] 65800 = 0
  ∧ segment_name_eq "__auth_got\x00\x00\x00\x00\x00\x00" "__got" = false :=
  ⟨rfl, rfl, rfl, rfl, rfl, rfl⟩

/-- Claim C2 counterexample: for an ordinary __TEXT segment the sealer
trace is [set_max=false, set_max=true]: the first protect call has
set_max = false, not set_max = true as claimed. -/
theorem c2_counterexample :
    segments_protection_apply 65536 (fun _ => 5) [c2seg] =
      .ok [⟨81920, 16384, false, 5⟩, ⟨81920, 16384, true, 5⟩]
  ∧ ([⟨81920, 16384, false, 5⟩, ⟨81920, 16384, true, 5⟩] : List ProtCall).map
      ProtCall.setMax = [false, true] :=
  ⟨rfl, rfl⟩

/-- Claim C2 as amended: for every segment other than __PAGEZERO the
sealer invokes protect with set_max = false and initprot first, then
set_max = true and initprot, and the run fails fatally exactly when
the kernel-reported protection readback of some non-__PAGEZERO segment
differs from its initprot. -/
theorem c2_amended_seal_order (vm : Nat) (rp : Nat → Nat) (segs : List SegmentD) :
    segments_protection_apply vm rp segs =
      if segs.all (fun s => segment_name_eq s.segname "__PAGEZERO"
          || (rp (vm + s.vmaddr) == s.initprot))
      then .ok ((segs.filter
          (fun s => ! segment_name_eq s.segname "__PAGEZERO")).flatMap (sealCalls vm))
      else .error .protectionMismatch := by
  induction segs with
  | nil => rfl
  | cons seg rest ih =>
    simp only [segments_protection_apply, segmentSeal, List.all_cons, List.filter_cons]
    by_cases hpz : segment_name_eq seg.segname "__PAGEZERO"
    · simp only [hpz, if_true, Bool.true_or, Bool.true_and, Bool.not_true, ih]
      by_cases hall : rest.all (fun s => segment_name_eq s.segname "__PAGEZERO"
          || (rp (vm + s.vmaddr) == s.initprot))
      · simp [hall]
      · simp [hall]
    · by_cases hmatch : rp (vm + seg.vmaddr) = seg.initprot
      · simp only [hpz, if_false, hmatch, if_pos rfl, Bool.false_or, Bool.not_false, ih]
        by_cases hall : rest.all (fun s => segment_name_eq s.segname "__PAGEZERO"
            || (rp (vm + s.vmaddr) == s.initprot))
        · simp [hall, hmatch]
        · simp [hall, hmatch]
      · have hb : (rp (vm + seg.vmaddr) == seg.initprot) = false := by
          simp [hmatch]
        simp [hpz, hmatch, hb]

/-- Claim C3 counterexample: rwx (7) contains read+execute, yet the
entry check compares for equality with read+execute (5) and the jump
aborts fatally instead of proceeding. -/
theorem c3_counterexample :
    (7 &&& (VM_PROT_READ ||| VM_PROT_EXECUTE)) = (VM_PROT_READ ||| VM_PROT_EXECUTE)
  ∧ jump_to_entry 65536 16384 "hello" [] (fun _ => 7) = .error .entryNotExecutable :=
  ⟨by decide, rfl⟩

/-- Claim C3 as amended: the entry jumper computes entry_va = vm +
macho.entry and jumps exactly when the kernel-reported protection of
the region of entry_va EQUALS read+execute; any other protection value,
including rwx, aborts fatally, and the jump never executes when the
assertion fails. -/
theorem c3_amended_entry_check (vm entry : Nat) (name : String) (envs : List String)
    (rp : Nat → Nat) :
    (jump_to_entry vm entry name envs rp =
        .ok ⟨vm + entry, argcInitial name, roomArgv name envs⟩
      ↔ rp (vm + entry) = (VM_PROT_READ ||| VM_PROT_EXECUTE))
  ∧ (∀ ev : JumpEvent, jump_to_entry vm entry name envs rp = .ok ev →
      ev.addr = vm + entry ∧ rp (vm + entry) = (VM_PROT_READ ||| VM_PROT_EXECUTE)) := by
  unfold jump_to_entry
  by_cases hc : rp (vm + entry) = (VM_PROT_READ ||| VM_PROT_EXECUTE)
  · constructor
    · simp [hc]
    · intro ev hev
      simp [hc] at hev
      simp [← hev, hc]
  · constructor
    · simp [hc]
    · intro ev hev
      simp [hc] at hev

/-- Witness for the amended C3 theorem at a region sealed exactly
read+execute. -/
theorem c3_amended_entry_check_witness :
    jump_to_entry 65536 16384 "hello" [] (fun _ => 5) =
      .ok ⟨81920, argcInitial "hello", roomArgv "hello" []⟩ :=
  (c3_amended_entry_check 65536 16384 "hello" [] (fun _ => 5)).1.mpr rfl

/-- Claim C4 counterexample: a __DATA_CONST / __got section with type
11 (neither 0x6 nor 0x7) and a non-empty slot array makes the Room
rebinder return success with an empty write list: no fatal
BadGotSection error is raised. -/
theorem c4_counterexample :
    rebind_global_offset_table c4macho [] (fun _ _ => 0) 65536 = .ok []
  ∧ (rebind_global_offset_table c4macho [] (fun _ _ => 0) 65536).isOk = true :=
  ⟨rfl, rfl⟩

/-- Claim C4 as amended: a GOT-named section whose type is neither
0x6 nor 0x7 is silently skipped by Room::rebind_global_offset_table
(no error, no write), while the Linker::link_raw variant fails fatally
with its unsupported-flags panic (and performs no write for that
section) for both the padded __got and __auth_got names. -/
theorem c4_amended_bad_type_paths (symbols : List (String × Nlist))
    (dylibs : List (String × Nat)) (dlsym : Nat → String → Nat)
    (vm : Nat) (is64 : Bool)
    (tsymbols : List (String × Nat)) (memory : Nat)
    (sname : String) (flags addr sz off : Nat) (data : List Nat)
    (toff tvmaddr tvmsize talign : Nat)
    (h6 : flags &&& SECTION_TYPE ≠ S_NON_LAZY_SYMBOL_POINTERS)
    (h7 : flags &&& SECTION_TYPE ≠ S_LAZY_SYMBOL_POINTERS) :
    rebindSection symbols dylibs dlsym vm is64 ⟨sname, flags, addr, sz, off, data⟩ = .ok []
  ∧ link_raw_section tsymbols memory
      ⟨flags, "__got\x00\x00\x00\x00\x00\x00\x00\x00\x00\x00\x00", toff, tvmaddr, tvmsize, talign⟩
      = .error .unsupportedFlags
  ∧ link_raw_section tsymbols memory
      ⟨flags, "__auth_got\x00\x00\x00\x00\x00\x00", toff, tvmaddr, tvmsize, talign⟩
      = .error .unsupportedFlags := by
  refine ⟨?_, ?_, ?_⟩
  · unfold rebindSection
    by_cases hname : segment_name_eq sname "__got"
    · simp [hname, h6, h7]
    · simp [hname]
  · unfold link_raw_section
    rw [if_pos (Or.inl rfl), if_neg (not_or.mpr ⟨h6, h7⟩)]
  · unfold link_raw_section
    rw [if_pos (Or.inr rfl), if_neg (not_or.mpr ⟨h6, h7⟩)]

/-- Witness for the amended C4 theorem at a concrete type-11 section. -/
theorem c4_amended_bad_type_paths_witness :
    rebindSection [] [] (fun _ _ => 0) 0 true
      ⟨"__got\x00\x00\x00\x00\x00\x00\x00\x00\x00\x00\x00", 11, 0, 0, 0, []⟩ = .ok []
  ∧ link_raw_section [] 0
      ⟨11, "__got\x00\x00\x00\x00\x00\x00\x00\x00\x00\x00\x00", 0, 0, 0, 0⟩
      = .error .unsupportedFlags
  ∧ link_raw_section [] 0
      ⟨11, "__auth_got\x00\x00\x00\x00\x00\x00", 0, 0, 0, 0⟩
      = .error .unsupportedFlags :=
  c4_amended_bad_type_paths [] [] (fun _ _ => 0) 0 true [] 0
    "__got\x00\x00\x00\x00\x00\x00\x00\x00\x00\x00\x00" 11 0 0 0 [] 0 0 0 0
    (by decide) (by decide)

/-- Claim C5 counterexample: with program name "a" and environment
["E"], the Room argv starts with argc smuggled as a pointer (its
element 0 is not the program name), and neither argv variant is
terminated by a null pointer. -/
theorem c5_counterexample :
    roomArgv "a" ["E"] = [.intPtr 1, .strPtr "a\x00", .strPtr "E\x00"]
  ∧ (roomArgv "a" ["E"]).head? ≠ some (.strPtr "a\x00")
  ∧ ¬ ArgvElem.nullPtr ∈ jumperArgv "a" ["E"]
  ∧ (jumperArgv "a" ["E"]).getLast? ≠ some ArgvElem.nullPtr := by
  refine ⟨by decide, by decide, by decide, by decide⟩

/-- Claim C5 as amended: argc is always 1; the jumper argv is the
program name followed by the environment strings in order (each
NUL-terminated), with no terminating null pointer; Room::jump_to_entry
additionally prepends argc cast to a pointer as element 0, again with
no terminating null pointer. -/
theorem c5_amended_argv_shape (name : String) (envs : List String) :
    jumperArgv name envs =
      .strPtr (cstring name) :: envs.map (fun e => .strPtr (cstring e))
  ∧ argcInitial name = 1
  ∧ roomArgv name envs = .intPtr 1 :: jumperArgv name envs
  ∧ ¬ ArgvElem.nullPtr ∈ jumperArgv name envs
  ∧ ¬ ArgvElem.nullPtr ∈ roomArgv name envs := by
  refine ⟨?_, rfl, rfl, ?_, ?_⟩
  · simp [jumperArgv, program_arguments]
  · simp [jumperArgv, program_arguments]
  · simp [roomArgv, jumperArgv, program_arguments]

/-- Witness for the amended C5 theorem at a concrete name and
environment. -/
theorem c5_amended_argv_shape_witness :
    jumperArgv "a" ["E"] =
      .strPtr (cstring "a") :: ["E"].map (fun e => .strPtr (cstring e)) :=
  (c5_amended_argv_shape "a" ["E"]).1

/-- Claim C6: the dylib table builder opens plain, upward and reexport
dylib commands with flags 0, weak ones with RTLD_NOLOAD, lazy ones
with RTLD_LAZY, skipping every other command: its dlopen trace equals
the flag table of the spec applied commandwise. -/
theorem c6_dylib_open_flags (cmds : List CommandVariantD) (n : String) :
    dylibs_load_in cmds = cmds.filterMap
      (fun c => (specDylibFlags c).map (fun f => (variantName c, f)))
  ∧ specDylibFlags (.loadDylib n) = some 0
  ∧ specDylibFlags (.loadUpwardDylib n) = some 0
  ∧ specDylibFlags (.reexportDylib n) = some 0
  ∧ specDylibFlags (.loadWeakDylib n) = some RTLD_NOLOAD
  ∧ specDylibFlags (.lazyLoadDylib n) = some RTLD_LAZY := by
  refine ⟨?_, rfl, rfl, rfl, rfl, rfl⟩
  induction cmds with
  | nil => rfl
  | cons c rest ih =>
    cases c <;> simp [dylibs_load_in, specDylibFlags, variantName, ih]

/-- Claim C7: input validation rejects, in source order and before any
parsing, a null pointer (NullImage), an empty image (EmptyImage), and
any length strictly above 100,000,000 (ImageTooLarge); a length of
exactly 100,000,000 passes the size check and 100,000,001 fails. -/
theorem c7_input_validation (len extra : Nat) :
    task_init_validate true len = .error .nullImage
  ∧ task_init_validate false 0 = .error .emptyImage
  ∧ task_init_validate false (100000001 + extra) = .error .imageTooLarge
  ∧ task_init_validate false 100000000 = .ok ()
  ∧ task_init_validate false 100000001 = .error .imageTooLarge := by
  refine ⟨rfl, rfl, ?_, rfl, rfl⟩
  have h1 : ¬(100000001 + extra = 0) := by omega
  have h2 : 100000001 + extra > 100000000 := by omega
  simp [task_init_validate, h1, h2]

/-- Claim C8 counterexample: a __PAGEZERO segment with a non-zero file
size is copied by Room::segments_initialize (a write targeting its
range) and protected by Task::segments_protect: neither stage exempts
it. -/
theorem c8_counterexample :
    segmentsLoadIn 65536 [c8pzSegment] = [⟨64, 65536, 8⟩]
  ∧ (⟨64, 65536, 8⟩ : CopyOp).count ≠ 0
  ∧ segments_protect 65536 [c8pzTSegment] =
      [⟨65536, 8, false, 0⟩, ⟨65536, 8, true, 0⟩] :=
  ⟨rfl, by decide, rfl⟩

/-- Claim C8 as amended: Room::segments_initialize copies filesize
bytes for every segment including __PAGEZERO, Task::segments_protect
issues its two protect calls for every segment including __PAGEZERO;
only Room::segments_protection_apply skips __PAGEZERO. -/
theorem c8_amended_pagezero (vm : Nat) (segs : List SegmentD) (tsegs : List TSegment)
    (rp : Nat → Nat) (s : SegmentD)
    (hpz : segment_name_eq s.segname "__PAGEZERO" = true) :
    segmentsLoadIn vm segs = segs.map (fun g => ⟨g.fileoff, vm + g.vmaddr, g.filesize⟩)
  ∧ segments_protect vm tsegs = tsegs.flatMap
      (fun g => [⟨vm + g.vm_addr, g.size, false, g.initprot⟩,
                 ⟨vm + g.vm_addr, g.size, true, g.initprot⟩])
  ∧ segmentSeal vm rp s = .ok [] :=
  ⟨segmentsLoadIn_eq_map vm segs, segments_protect_eq_flatMap vm tsegs,
   by rw [segmentSeal, if_pos hpz]⟩

/-- Witness for the amended C8 theorem at a concrete __PAGEZERO
segment. -/
theorem c8_amended_pagezero_witness :
    segmentsLoadIn 4096 [] = []
  ∧ segments_protect 4096 [] = []
  ∧ segmentSeal 4096 (fun _ => 0) c8pzSegment = .ok [] := by
  have h := c8_amended_pagezero 4096 [] [] (fun _ => 0) c8pzSegment (by decide)
  simpa using h

/-- Claim C9: within read_ptr the tag strip masks a 64-bit value to
bits 59..0 exactly when bits 63..60 are non-zero, is the identity on
every value whose top nibble is zero, always produces a zero top
nibble, and is idempotent; read_ptr is that strip applied to the
little-endian 64-bit read. -/
theorem c9_strip_tag_spec (v : Nat) (data : List Nat) (offset : Nat)
    (h : v < 2 ^ 64) :
    read_ptr true data offset = strip_tag (readLe data offset 8)
  ∧ (v >>> 60 ≠ 0 → strip_tag v = v % 2 ^ 60)
  ∧ (v >>> 60 = 0 → strip_tag v = v)
  ∧ strip_tag v >>> 60 = 0
  ∧ strip_tag (strip_tag v) = strip_tag v := by
  refine ⟨rfl, ?_⟩
  have hhi := and_hi_eq v h
  have hcond : (v &&& 0xF000000000000000 ≠ 0) ↔ v >>> 60 ≠ 0 := by
    rw [hhi, Nat.shiftLeft_eq]
    constructor
    · intro hne h0
      exact hne (by rw [h0, Nat.zero_mul])
    · intro hne h0
      rcases Nat.mul_eq_zero.mp h0 with h1 | h1
      · exact hne h1
      · norm_num at h1
  by_cases hz : v >>> 60 = 0
  · have hc : ¬ (v &&& 0xF000000000000000 ≠ 0) := fun hne => (hcond.mp hne) hz
    have hs : strip_tag v = v := by simp [strip_tag, hc]
    refine ⟨fun hne => absurd hz hne, fun _ => hs, ?_, ?_⟩
    · rw [hs]; exact hz
    · rw [hs, hs]
  · have hc : v &&& 0xF000000000000000 ≠ 0 := hcond.mpr hz
    have hs : strip_tag v = v % 2 ^ 60 := by
      simp only [strip_tag, if_pos hc]
      exact lo_mask_eq v
    have hlt : v % 2 ^ 60 < 2 ^ 60 := Nat.mod_lt _ (by positivity)
    have hz2 : (v % 2 ^ 60) >>> 60 = 0 := by
      rw [Nat.shiftRight_eq_div_pow]
      exact Nat.div_eq_of_lt hlt
    refine ⟨fun _ => hs, fun hz0 => absurd hz0 hz, ?_, ?_⟩
    · rw [hs]; exact hz2
    · rw [hs]
      have h64 : v % 2 ^ 60 < 2 ^ 64 := lt_trans hlt (by norm_num)
      have hcond2 : (v % 2 ^ 60) &&& 0xF000000000000000 = 0 := by
        rw [and_hi_eq _ h64, Nat.shiftLeft_eq, hz2, Nat.zero_mul]
      rw [strip_tag, if_neg (not_not_intro hcond2)]

/-- Witness for the C9 theorem at the tagged pointer 0xF000...001 and
the untagged pointer 1. -/
theorem c9_strip_tag_spec_witness :
    strip_tag 17293822569102704641 = 17293822569102704641 % 2 ^ 60
  ∧ strip_tag 1 = 1 := by
  constructor
  · exact (c9_strip_tag_spec 17293822569102704641 [] 0 (by norm_num)).2.1
      (by rw [Nat.shiftRight_eq_div_pow]; norm_num)
  · exact (c9_strip_tag_spec 1 [] 0 (by norm_num)).2.2.1 (by decide)

/-- Claim C10: when the slot loop of the GOT rebinder matches an
undefined symbol whose library ordinal is 0 or exceeds the dylib table
length, it aborts with the checked-subtraction or bounds-check panic,
independently of the dlsym resolver, so no out-of-range access or
wrong-handle resolution occurs. -/
theorem c10_ordinal_guard (symbols : List (String × Nlist))
    (dylibs : List (String × Nat)) (vm : Nat) (is64 : Bool)
    (sectAddr : Nat) (data : List Nat) (nth : Nat)
    (symname : String) (nl : Nlist)
    (hfind : symbols.find? (fun s =>
        s.2.n_value == read_ptr is64 data (nth * (if is64 then 8 else 4))) =
        some (symname, nl))
    (hundf : nlistGetType nl = N_UNDF)
    (hord : get_library_ordinal nl.n_desc = 0
        ∨ dylibs.length < get_library_ordinal nl.n_desc) :
    ∀ dlsymA dlsymB : Nat → String → Nat,
      rebindSlot symbols dylibs dlsymA vm is64 sectAddr data nth =
        rebindSlot symbols dylibs dlsymB vm is64 sectAddr data nth
    ∧ (rebindSlot symbols dylibs dlsymA vm is64 sectAddr data nth =
          .error .ordinalUnderflow
      ∨ rebindSlot symbols dylibs dlsymA vm is64 sectAddr data nth =
          .error .ordinalOutOfRange) := by
  intro dlsymA dlsymB
  have key : ∀ ds : Nat → String → Nat,
      rebindSlot symbols dylibs ds vm is64 sectAddr data nth =
        (if get_library_ordinal nl.n_desc = 0
         then Except.error RebindError.ordinalUnderflow
         else Except.error RebindError.ordinalOutOfRange) := by
    intro ds
    rcases hord with h0 | hgt
    · simp only [rebindSlot, hfind, hundf, h0, if_pos rfl]
      simp
    · have hne : ¬ (get_library_ordinal nl.n_desc = 0) := by omega
      have hnone : dylibs.get? (get_library_ordinal nl.n_desc - 1) = none := by
        rw [List.get?_eq_none]
        omega
      simp only [rebindSlot, hfind, hundf, hnone, if_pos rfl, if_neg hne]
      simp
  refine ⟨(key dlsymA).trans (key dlsymB).symm, ?_⟩
  by_cases h0 : get_library_ordinal nl.n_desc = 0
  · exact Or.inl ((key dlsymA).trans (if_pos h0))
  · exact Or.inr ((key dlsymA).trans (if_neg h0))

/-- Witness for the C10 theorem: a one-symbol table whose undefined
symbol carries ordinal 0, against an empty dylib table, aborts with
the underflow panic for two different resolvers alike. -/
theorem c10_ordinal_guard_witness :
    rebindSlot [("_f", ⟨1, 0, 0⟩)] [] (fun _ _ => 11) 0 true 0
        [0, 0, 0, 0, 0, 0, 0, 0] 0 =
      rebindSlot [("_f", ⟨1, 0, 0⟩)] [] (fun _ _ => 22) 0 true 0
        [0, 0, 0, 0, 0, 0, 0, 0] 0
  ∧ (rebindSlot [("_f", ⟨1, 0, 0⟩)] [] (fun _ _ => 11) 0 true 0
        [0, 0, 0, 0, 0, 0, 0, 0] 0 = .error .ordinalUnderflow
    ∨ rebindSlot [("_f", ⟨1, 0, 0⟩)] [] (fun _ _ => 11) 0 true 0
        [0, 0, 0, 0, 0, 0, 0, 0] 0 = .error .ordinalOutOfRange) :=
  c10_ordinal_guard [("_f", ⟨1, 0, 0⟩)] [] 0 true 0 [0, 0, 0, 0, 0, 0, 0, 0] 0
    "_f" ⟨1, 0, 0⟩ rfl rfl (Or.inl rfl) (fun _ _ => 11) (fun _ _ => 22)

end MachOLoader
